import Mathlib

/-
  Verification of the Havoc decision core against its specification.

  Shallow embedding of the TypeScript sources:
    - Creator Reputation Index (cri.ts): temporal decay of rug detections,
      recidivism multiplier, opaque score, band mapping, rug recording.
    - Havoc state machine (state-machine.ts): lifecycle states and transitions.
    - Market-maker decision engine (market-maker.ts): per-band policies and
      Mayhem coordination override.
    - ML pattern detector (pattern-detector.ts): anomaly scoring, Markov
      transition table, linear-regression forecasting.

  JS numbers are modelled as rationals where the source only performs field
  arithmetic and comparisons, and as reals where the source calls Math.exp,
  Math.pow with fractional exponent, or Math.sqrt.  Timestamps are rationals
  (CRI, detector) or naturals (state machine).  JS Maps are association lists
  that preserve insertion order, exactly as a JS Map iterates.
-/

namespace Havoc

/-! ## Creator Reputation Index (cri.ts) -/

/-- Band classification exposed by the CRI, source type CRIBand. -/
inductive CRIBand
  | GUARDIAN
  | NEUTRAL
  | ADVERSARIAL
  deriving DecidableEq, Repr

/-- Half-life constant from applyTemporalDecay: 30 * 24 * 60 * 60 * 1000 ms. -/
def HALF_LIFE_MS : ℝ := 30 * 24 * 60 * 60 * 1000

/-- Recidivism multiplier from applyTemporalDecay:
    recidivismCount === 0 gives 1, === 1 gives 2.5, otherwise 4. -/
def recidivismMultiplier (recidivismCount : ℕ) : ℝ :=
  if recidivismCount = 0 then 1 else if recidivismCount = 1 then 2.5 else 4

/-- Source applyTemporalDecay (cri.ts): iterates over rugDetections, each a
    (timestamp, severity) pair, accumulating severity * exp(-(now - ts) / HALF_LIFE_MS),
    then multiplies the accumulated penalty by the recidivism multiplier.
    The source reads now from Date.now(); here it is an explicit argument. -/
noncomputable def applyTemporalDecay
    (rugDetections : List (ℚ × ℚ)) (recidivismCount : ℕ) (now : ℚ) : ℝ :=
  (rugDetections.foldl
    (fun acc d => acc + (d.2 : ℝ) * Real.exp (-(((now - d.1 : ℚ)) : ℝ) / HALF_LIFE_MS)) 0)
    * recidivismMultiplier recidivismCount

/-- Claim-side restatement of the decay sum: the sum over all detections of
    severity * exp(-age / HALF_LIFE_MS), written with List.map and List.sum. -/
noncomputable def sumDecayed (rugDetections : List (ℚ × ℚ)) (now : ℚ) : ℝ :=
  (rugDetections.map
    (fun d => (d.2 : ℝ) * Real.exp (-(((now - d.1 : ℚ)) : ℝ) / HALF_LIFE_MS))).sum

/-- Source scoreToBand (cri.ts): score >= 80 gives GUARDIAN, score >= 40 gives
    NEUTRAL, otherwise ADVERSARIAL. -/
noncomputable def scoreToBand (score : ℝ) : CRIBand :=
  if 80 ≤ score then CRIBand.GUARDIAN
  else if 40 ≤ score then CRIBand.NEUTRAL
  else CRIBand.ADVERSARIAL

/-- Band ordering used to state monotonicity: ADVERSARIAL < NEUTRAL < GUARDIAN. -/
def bandOrd : CRIBand → ℕ
  | CRIBand.ADVERSARIAL => 0
  | CRIBand.NEUTRAL => 1
  | CRIBand.GUARDIAN => 2

/-- Source CRIInput.graduationHistory. -/
structure GraduationHistory where
  successfulLaunches : ℕ
  totalLaunches : ℕ
  avgTimeToGraduation : ℚ

/-- Source CRIInput.liquidityBehavior. -/
structure LiquidityBehavior where
  postGraduationRetention : ℚ
  extractionVelocity : ℚ
  frequentWithdrawals : Bool

/-- Source CRIInput.holderDistribution. -/
structure HolderDistribution where
  topHolderConcentration : ℚ
  giniCoefficient : ℚ

/-- Source CRIInput.earlySellingPatterns. -/
structure EarlySellingPatterns where
  presaleExitRate : ℚ
  firstHourVolatility : ℚ

/-- Source CRIInput.botActivity. -/
structure BotActivity where
  suspiciousBotWashTrades : ℕ
  flashLoanExploits : ℕ

/-- Source CRIInput.positiveIndicators. -/
structure PositiveIndicators where
  consistentLiquidityAdditions : Bool
  stableLaunchHistory : Bool
  holderGrowthQuality : Bool

/-- Source CRIInput; the devWallet PublicKey is carried as its base58 string,
    which is the key the source uses for all map lookups. -/
structure CRIInput where
  devWallet : String
  previousRugDetections : ℕ
  rugSeverity : ℚ
  graduationHistory : GraduationHistory
  liquidityBehavior : LiquidityBehavior
  holderDistribution : HolderDistribution
  earlySellingPatterns : EarlySellingPatterns
  botActivity : BotActivity
  positiveIndicators : PositiveIndicators

/-- Source CRIRecord; internalScore is a real because computeScore produces a
    real (it involves Math.exp and fractional Math.pow). -/
structure CRIRecord where
  devWallet : String
  internalScore : ℝ
  band : CRIBand
  lastUpdated : ℚ
  observationCount : ℕ
  historicalBands : List CRIBand
  rugDetections : List (ℚ × ℚ)
  recidivismCount : ℕ

/-- Source computeScore (cri.ts), embedded statement by statement.  The score
    starts at the neutral baseline 50, subtracts the capped decayed rug penalty
    (or the fallback penalty when no record exists), adds the graduation and
    retention bonuses, applies the extraction-velocity, holder-concentration,
    early-selling and bot-activity penalties and the positive-indicator
    bonuses, and finally clamps to the interval from 0 to 100.
    Math.pow(x, 1.5) is real rpow; now is Date.now() made explicit. -/
noncomputable def computeScore (input : CRIInput) (record : Option CRIRecord) (now : ℚ) : ℝ :=
  let score0 : ℝ := 50
  let score1 : ℝ :=
    match record with
    | some r =>
        score0 - min (applyTemporalDecay r.rugDetections r.recidivismCount now * 20) 45
    | none =>
        score0 - min ((input.previousRugDetections : ℝ) * 15) 40 - (input.rugSeverity : ℝ) * 20
  let gradRate : ℝ :=
    (input.graduationHistory.successfulLaunches : ℝ) /
      max (input.graduationHistory.totalLaunches : ℝ) 1
  let score2 := score1 + gradRate * 20
  let score3 := score2 + (input.liquidityBehavior.postGraduationRetention : ℝ) * 15
  let score4 := if (1000 : ℚ) < input.liquidityBehavior.extractionVelocity then score3 - 25 else score3
  let score5 :=
    if (3/10 : ℚ) < input.holderDistribution.topHolderConcentration then
      score4 - ((input.holderDistribution.topHolderConcentration : ℝ) ^ (1.5 : ℝ)) * 30
    else score4
  let score6 := score5 - (input.earlySellingPatterns.presaleExitRate : ℝ) * 15
  let score7 := score6 - min ((input.earlySellingPatterns.firstHourVolatility : ℝ) / 100) 1 * 20
  let score8 := score7 - (input.botActivity.suspiciousBotWashTrades : ℝ) * 5
  let score9 := score8 - (input.botActivity.flashLoanExploits : ℝ) * 40
  let score10 := if input.positiveIndicators.consistentLiquidityAdditions then score9 + 10 else score9
  let score11 := if input.positiveIndicators.stableLaunchHistory then score10 + 15 else score10
  let score12 := if input.positiveIndicators.holderGrowthQuality then score11 + 10 else score11
  max 0 (min 100 score12)

/-- Records map of the CreatorReputationIndex class: a JS Map from the
    base58 dev key to the CRIRecord, as an insertion-ordered association list. -/
abbrev CRIRecords := List (String × CRIRecord)

/-- Lookup in the records map (JS Map.get). -/
def lookupRecord : CRIRecords → String → Option CRIRecord
  | [], _ => none
  | p :: ps, k => if p.1 = k then some p.2 else lookupRecord ps k

/-- Store into the records map (JS Map.set): replaces in place when the key is
    present, appends otherwise. -/
def setRecord : CRIRecords → String → CRIRecord → CRIRecords
  | [], k, r => [(k, r)]
  | p :: ps, k, r => if p.1 = k then (k, r) :: ps else p :: setRecord ps k r

/-- The 60-day recidivism window from recordRugDetection, in milliseconds. -/
def RECIDIVISM_WINDOW_MS : ℚ := 60 * 24 * 60 * 60 * 1000

/-- Source recordRugDetection (cri.ts).  If no record exists for the dev key
    the body is skipped entirely (the source only acts under if (record)).
    Otherwise it pushes (now, severity) onto rugDetections, counts the
    detections younger than 60 days, and increments recidivismCount when more
    than one detection falls inside that window.  Band and internalScore are
    not touched.  now is Date.now() made explicit. -/
def recordRugDetection (records : CRIRecords) (devKey : String) (severity now : ℚ) :
    CRIRecords :=
  match lookupRecord records devKey with
  | none => records
  | some r =>
      let dets := r.rugDetections ++ [(now, severity)]
      let recentRugs := dets.filter (fun d => now - d.1 < RECIDIVISM_WINDOW_MS)
      let r' : CRIRecord :=
        { r with
          rugDetections := dets
          recidivismCount :=
            if 1 < recentRugs.length then r.recidivismCount + 1 else r.recidivismCount }
      setRecord records devKey r'

/-! ## Havoc state machine (state-machine.ts) -/

/-- Source HavocState union type. -/
inductive HavocState
  | INIT
  | ACTIVE
  | GUARDIAN
  | NEUTRAL
  | ADVERSARIAL
  | COOLDOWN
  | TERMINATED
  deriving DecidableEq, Repr

/-- Source StateTransition record; from and to are spelled fromState and
    toState because from is reserved. -/
structure StateTransition where
  fromState : HavocState
  toState : HavocState
  timestamp : ℕ
  triggeredBy : String
  deriving DecidableEq, Repr

/-- Source TokenState; the mint is the key of the surrounding map. -/
structure TokenState where
  currentState : HavocState
  criband : Option CRIBand
  stateStartTime : ℕ
  transitionHistory : List StateTransition
  launchTime : ℕ
  deriving DecidableEq, Repr

/-- The tokenStates map of HavocStateMachine, insertion-ordered. -/
abbrev Machine := List (String × TokenState)

/-- Lookup in the tokenStates map (JS Map.get). -/
def findToken : Machine → String → Option TokenState
  | [], _ => none
  | p :: ps, k => if p.1 = k then some p.2 else findToken ps k

/-- Store into the tokenStates map (JS Map.set). -/
def setToken : Machine → String → TokenState → Machine
  | [], k, t => [(k, t)]
  | p :: ps, k, t => if p.1 = k then (k, t) :: ps else p :: setToken ps k t

/-- Source initializeToken: unconditionally installs a fresh INIT record and
    returns INIT.  now is Date.now() made explicit. -/
def initializeToken (m : Machine) (mintKey : String) (launchTime now : ℕ) :
    HavocState × Machine :=
  let state : TokenState :=
    { currentState := HavocState.INIT
      criband := none
      stateStartTime := now
      transitionHistory := []
      launchTime := launchTime }
  (HavocState.INIT, setToken m mintKey state)

/-- Source performTransition: updates currentState and stateStartTime and
    appends one StateTransition record.  The entry and exit handlers only log,
    so they have no effect on the embedded state. -/
def performTransition (t : TokenState) (newState : HavocState) (trigger : String)
    (now : ℕ) : TokenState :=
  { t with
    currentState := newState
    stateStartTime := now
    transitionHistory :=
      t.transitionHistory ++
        [{ fromState := t.currentState, toState := newState, timestamp := now,
           triggeredBy := trigger }] }

/-- Source bandToActiveState.  The source has a default branch returning
    ACTIVE, unreachable because CRIBand has exactly the three cases below. -/
def bandToActiveState : CRIBand → HavocState
  | CRIBand.GUARDIAN => HavocState.GUARDIAN
  | CRIBand.NEUTRAL => HavocState.NEUTRAL
  | CRIBand.ADVERSARIAL => HavocState.ADVERSARIAL

/-- Source transitionOnCRIChange: throws when the token is not initialized;
    otherwise stores the new band and performs a CRI_CHANGE transition when the
    mapped state differs from the current one.  Returns the current state. -/
def transitionOnCRIChange (m : Machine) (mintKey : String) (newBand : CRIBand)
    (now : ℕ) : Except String (HavocState × Machine) :=
  match findToken m mintKey with
  | none => Except.error "Token not initialized"
  | some t =>
      let t1 := { t with criband := some newBand }
      let newState := bandToActiveState newBand
      let t2 :=
        if newState ≠ t1.currentState then performTransition t1 newState "CRI_CHANGE" now
        else t1
      Except.ok (t2.currentState, setToken m mintKey t2)

/-- Source onRugDetected: throws when the token is not initialized; otherwise
    performs a RUG_DETECTED transition to ADVERSARIAL whenever the current
    state is not already ADVERSARIAL.  The severity is only logged. -/
def onRugDetected (m : Machine) (mintKey : String) (severity : ℚ) (now : ℕ) :
    Except String (HavocState × Machine) :=
  match findToken m mintKey with
  | none => Except.error "Token not initialized"
  | some t =>
      let _ := severity
      let t2 :=
        if t.currentState ≠ HavocState.ADVERSARIAL then
          performTransition t HavocState.ADVERSARIAL "RUG_DETECTED" now
        else t
      Except.ok (t2.currentState, setToken m mintKey t2)

/-- Source enterCooldown: throws when the token is not initialized; otherwise
    performs a 24H_THRESHOLD transition to COOLDOWN when more than 24 hours
    have elapsed since launch and the state is not already COOLDOWN. -/
def enterCooldown (m : Machine) (mintKey : String) (now : ℕ) :
    Except String (HavocState × Machine) :=
  match findToken m mintKey with
  | none => Except.error "Token not initialized"
  | some t =>
      let elapsed24h := 24 * 60 * 60 * 1000 < now - t.launchTime
      let t2 :=
        if elapsed24h ∧ t.currentState ≠ HavocState.COOLDOWN then
          performTransition t HavocState.COOLDOWN "24H_THRESHOLD" now
        else t
      Except.ok (t2.currentState, setToken m mintKey t2)

/-- Source terminate: throws when the token is not initialized; otherwise
    performs a transition to TERMINATED unconditionally, with the caller
    supplied reason as the trigger. -/
def terminate (m : Machine) (mintKey : String) (reason : String) (now : ℕ) :
    Except String Machine :=
  match findToken m mintKey with
  | none => Except.error "Token not initialized"
  | some t =>
      Except.ok (setToken m mintKey (performTransition t HavocState.TERMINATED reason now))

/-! ## Market-maker decision engine (market-maker.ts) -/

/-- Source MMAction type union. -/
inductive MMActionType
  | SPREAD_COMPRESSION
  | VOLUME_SMOOTHING
  | MOMENTUM_VALIDATION
  | EXTRACTION_SUPPRESSION
  | CRASH_BUFFERING
  | NO_ACTION
  deriving DecidableEq, Repr

/-- Source PoolState; the mint is carried as its base58 string. -/
structure PoolState where
  mint : String
  currentPrice : ℚ
  priceHistory : List ℚ
  bidAskSpread : ℚ
  spreadBps : ℚ
  volume24h : ℚ
  liquidityNative : ℚ
  liquidityToken : ℚ
  volatility : ℚ
  orderBookImbalance : ℚ

/-- Source MayhemSignal. -/
structure MayhemSignal where
  chaosLevel : ℚ
  suggestedSynchronization : Bool
  timestamp : ℚ

/-- Source MMModeContext. -/
structure MMModeContext where
  criband : CRIBand
  mayhemSignals : Option MayhemSignal
  windowSize : ℚ

/-- Source computeInternalSignal: weighted volatility, normalized spread,
    volume pressure and absolute order-book imbalance.  The context argument
    is accepted but unused, as in the source. -/
def computeInternalSignal (poolState : PoolState) (context : MMModeContext) : ℚ :=
  let _ := context
  poolState.volatility * (3/10)
    + (poolState.spreadBps / 100) * (1/4)
    + (poolState.volume24h / 100) * (1/5)
    + |poolState.orderBookImbalance| * (1/4)

/-- Source guardianModeDecision. -/
def guardianModeDecision (poolState : PoolState) (signal : ℚ) : MMActionType :=
  if 200 < poolState.spreadBps then MMActionType.SPREAD_COMPRESSION
  else if 15 < poolState.volatility then MMActionType.VOLUME_SMOOTHING
  else if 7/10 < signal then MMActionType.MOMENTUM_VALIDATION
  else MMActionType.NO_ACTION

/-- Source adversarialModeDecision. -/
def adversarialModeDecision (poolState : PoolState) (signal : ℚ) : MMActionType :=
  if 8/10 < signal then MMActionType.EXTRACTION_SUPPRESSION
  else if 25 < poolState.volatility then MMActionType.CRASH_BUFFERING
  else if 6/10 < poolState.orderBookImbalance then MMActionType.EXTRACTION_SUPPRESSION
  else MMActionType.NO_ACTION

/-- Source neutralModeDecision. -/
def neutralModeDecision (poolState : PoolState) (signal : ℚ) : MMActionType :=
  let _ := signal
  if 300 < poolState.spreadBps then MMActionType.SPREAD_COMPRESSION
  else if 20 < poolState.volatility then MMActionType.VOLUME_SMOOTHING
  else MMActionType.NO_ACTION

/-- Source coordinateWithMayhem.  First guard: Guardian band with chaos level
    above 0.7 upgrades NO_ACTION to CRASH_BUFFERING (any other decision falls
    through).  Second guard: Adversarial band with the synchronization hint
    forces EXTRACTION_SUPPRESSION.  Otherwise the policy decision stands. -/
def coordinateWithMayhem (decision : MMActionType) (mayhemSignal : MayhemSignal)
    (criband : CRIBand) : MMActionType :=
  if criband = CRIBand.GUARDIAN ∧ 7/10 < mayhemSignal.chaosLevel
      ∧ decision = MMActionType.NO_ACTION then
    MMActionType.CRASH_BUFFERING
  else if criband = CRIBand.ADVERSARIAL ∧ mayhemSignal.suggestedSynchronization then
    MMActionType.EXTRACTION_SUPPRESSION
  else decision

/-- Source decideAction, reduced to the action type it selects (the source
    additionally timestamps and logs the action).  Branches on the band into
    one of the three policies, then applies the Mayhem coordination override
    when a signal is present. -/
def decideAction (poolState : PoolState) (context : MMModeContext) : MMActionType :=
  let internalSignal := computeInternalSignal poolState context
  let base :=
    if context.criband = CRIBand.GUARDIAN then guardianModeDecision poolState internalSignal
    else if context.criband = CRIBand.ADVERSARIAL then
      adversarialModeDecision poolState internalSignal
    else neutralModeDecision poolState internalSignal
  match context.mayhemSignals with
  | some sig => coordinateWithMayhem base sig context.criband
  | none => base

/-! ## ML pattern detector (pattern-detector.ts) -/

/-- One value of the patterns map: a list of magnitude observations plus the
    last update timestamp. -/
structure PatternEntry where
  observations : List ℚ
  lastUpdate : ℚ
  deriving DecidableEq, Repr

/-- The patterns map of PatternDetector, keyed by the mint base58 string
    joined with the pattern type by a colon, insertion-ordered. -/
abbrev Patterns := List (String × PatternEntry)

/-- Lookup in the patterns map (JS Map.get). -/
def lookupObs : Patterns → String → Option PatternEntry
  | [], _ => none
  | p :: ps, k => if p.1 = k then some p.2 else lookupObs ps k

/-- Store into the patterns map (JS Map.set). -/
def setObs : Patterns → String → PatternEntry → Patterns
  | [], k, e => [(k, e)]
  | p :: ps, k, e => if p.1 = k then (k, e) :: ps else p :: setObs ps k e

/-- Source recordMagnitude: appends the magnitude to the keyed entry, creating
    it when absent, and keeps only the last 1000 observations.  now is
    Date.now() made explicit. -/
def recordMagnitude (pats : Patterns) (key : String) (magnitude now : ℚ) : Patterns :=
  let entry := (lookupObs pats key).getD { observations := [], lastUpdate := now }
  let obs := entry.observations ++ [magnitude]
  let obs' := if 1000 < obs.length then obs.drop (obs.length - 1000) else obs
  setObs pats key { observations := obs', lastUpdate := now }

/-- One per-mint Markov chain of PatternDetector: a JS Map from the string
    from-arrow-to transition key to its count, insertion-ordered. -/
abbrev Chain := List (String × ℕ)

/-- The transitions map of PatternDetector, keyed by mint base58 string. -/
abbrev Transitions := List (String × Chain)

/-- Lookup in the transitions map (JS Map.get). -/
def lookupChain : Transitions → String → Option Chain
  | [], _ => none
  | p :: ps, k => if p.1 = k then some p.2 else lookupChain ps k

/-- Store into the transitions map (JS Map.set). -/
def setChain : Transitions → String → Chain → Transitions
  | [], k, c => [(k, c)]
  | p :: ps, k, c => if p.1 = k then (k, c) :: ps else p :: setChain ps k c

/-- Increment of one transition count inside a chain (JS Map.set on the inner
    map with the previous count defaulting to 0). -/
def bumpChain : Chain → String → Chain
  | [], tk => [(tk, 1)]
  | p :: ps, tk => if p.1 = tk then (tk, p.2 + 1) :: ps else p :: bumpChain ps tk

/-- The transition key built by the source: from, an arrow, then to. -/
def transitionKey (fromLabel toLabel : String) : String :=
  fromLabel ++ "→" ++ toLabel

/-- Source recordTransition, restricted to the transitions map (the source
    also appends to a separate 100-entry history used by predictNextAction,
    which no claim touches).  Creates the per-mint chain when absent and
    increments the count of the from-arrow-to key. -/
def recordTransition (trans : Transitions) (mintKey fromLabel toLabel : String) :
    Transitions :=
  let chain := (lookupChain trans mintKey).getD []
  setChain trans mintKey (bumpChain chain (transitionKey fromLabel toLabel))

/-- Source TransitionProbability record. -/
structure TransitionProbability where
  fromLabel : String
  toLabel : String
  probability : ℚ
  count : ℕ
  deriving DecidableEq, Repr

/-- Source getTransitionProbabilities (pattern-detector.ts).  The source
    computes the total as

      Array.from(chain.values()).filter((_, key) => key.startsWith(...))

    The second parameter of a filter callback is the element index, a number,
    so key.startsWith throws a TypeError as soon as the chain has at least one
    entry.  Only an empty chain lets the filter complete, with total 0, and
    the total === 0 guard then returns the empty list, so the normalization
    and descending sort further down the source body are unreachable.  The
    embedding returns the thrown error through Except. -/
def getTransitionProbabilities (trans : Transitions) (mintKey fromState : String) :
    Except String (List TransitionProbability) :=
  let _ := fromState
  match lookupChain trans mintKey with
  | none => Except.ok []
  | some chain =>
      if chain.isEmpty then Except.ok []
      else Except.error "TypeError: key.startsWith is not a function"

/-- Mean of the observation window, as computed by getAnomalyScore: the sum
    divided by the length, in real arithmetic. -/
noncomputable def listMean (obs : List ℚ) : ℝ :=
  ((obs.map (fun q : ℚ => (q : ℝ))).sum) / obs.length

/-- Population variance of the observation window, as computed by
    getAnomalyScore: mean of squared deviations from the mean. -/
noncomputable def listVariance (obs : List ℚ) : ℝ :=
  ((obs.map (fun q : ℚ => ((q : ℝ) - listMean obs) ^ 2)).sum) / obs.length

/-- Standard deviation of the observation window. -/
noncomputable def listStdDev (obs : List ℚ) : ℝ :=
  Real.sqrt (listVariance obs)

/-- Source AnomalyScore record.  isAnomaly is the proposition the source
    decides with a float comparison. -/
structure AnomalyScore where
  severity : ℝ
  isAnomaly : Prop
  deviation : ℝ
  confidence : ℝ

open scoped Classical in
/-- Source getAnomalyScore (pattern-detector.ts).  Fewer than 3 observations
    (or a missing entry) yields the fixed low-confidence default; a zero
    standard deviation yields severity 0.5 when the probe is more than 0.01
    from the mean and 0.1 otherwise, never an anomaly; otherwise the deviation
    is standardized, anomaly means more than 2 standard deviations, severity
    is the deviation quartered and capped at 1, and confidence grows with the
    window up to 0.95. -/
noncomputable def getAnomalyScore (pats : Patterns) (key : String) (observation : ℚ) :
    AnomalyScore :=
  match lookupObs pats key with
  | none =>
      { severity := 3/10, isAnomaly := False, deviation := 0, confidence := 1/5 }
  | some entry =>
      if entry.observations.length < 3 then
        { severity := 3/10, isAnomaly := False, deviation := 0, confidence := 1/5 }
      else
        let obs := entry.observations
        let mean := listMean obs
        let stdDev := listStdDev obs
        if stdDev = 0 then
          { severity := if 1/100 < |(observation : ℝ) - mean| then 1/2 else 1/10
            isAnomaly := False, deviation := 0, confidence := 1/2 }
        else
          let deviation := ((observation : ℝ) - mean) / stdDev
          { severity := min (|deviation| / 4) 1
            isAnomaly := 2 < |deviation|
            deviation := deviation
            confidence := min ((obs.length : ℝ) / 50) (95/100) }

/-- Source forecastMagnitude (pattern-detector.ts).  Returns none when the
    entry is missing or holds fewer than 5 observations.  Otherwise runs
    ordinary least squares over the last 20 observations with the index as x,
    forecasts at n - 1 + lookaheadSteps, clamps the forecast to the unit
    interval, and pairs it with the confidence max(0.4, 0.9 / (1 + 0.5 k)).
    All arithmetic is rational, as in the source. -/
def forecastMagnitude (pats : Patterns) (key : String) (lookaheadSteps : ℕ) :
    Option (ℚ × ℚ) :=
  match lookupObs pats key with
  | none => none
  | some entry =>
      if entry.observations.length < 5 then none
      else
        let obs := entry.observations.drop (entry.observations.length - 20)
        let n := obs.length
        let xMean : ℚ := ((n : ℚ) - 1) / 2
        let yMean : ℚ := obs.sum / (n : ℚ)
        let numerator : ℚ :=
          ((List.range n).map (fun i : ℕ => ((i : ℚ) - xMean) * (obs.getD i 0 - yMean))).sum
        let denominator : ℚ :=
          ((List.range n).map (fun i : ℕ => ((i : ℚ) - xMean) ^ 2)).sum
        let slope := if denominator = 0 then 0 else numerator / denominator
        let intercept := yMean - slope * xMean
        let forecast := intercept + slope * ((n : ℚ) - 1 + (lookaheadSteps : ℚ))
        let clampedForecast := max 0 (min forecast 1)
        let confidence : ℚ := max (2/5) ((9/10) / (1 + (lookaheadSteps : ℚ) * (1/2)))
        some (clampedForecast, confidence)

/-- The forecast confidence formula of forecastMagnitude, named so that the
    monotonicity statements can speak about it directly. -/
def forecastConfidence (lookaheadSteps : ℕ) : ℚ :=
  max (2/5) ((9/10) / (1 + (lookaheadSteps : ℚ) * (1/2)))

/-! ## Concrete inputs used by the counterexample and witness statements -/

/-- Token record right after initializeToken at launch time 0, then terminate
    with reason MANUAL_STOP at time 1. -/
def c1_terminated : TokenState :=
  { currentState := HavocState.TERMINATED
    criband := none
    stateStartTime := 1
    transitionHistory :=
      [{ fromState := HavocState.INIT, toState := HavocState.TERMINATED,
         timestamp := 1, triggeredBy := "MANUAL_STOP" }]
    launchTime := 0 }

/-- The same token record after a rug detection at time 2 hits the TERMINATED
    entity: the source transitions it to ADVERSARIAL. -/
def c1_rugged : TokenState :=
  { currentState := HavocState.ADVERSARIAL
    criband := none
    stateStartTime := 2
    transitionHistory :=
      [{ fromState := HavocState.INIT, toState := HavocState.TERMINATED,
         timestamp := 1, triggeredBy := "MANUAL_STOP" },
       { fromState := HavocState.TERMINATED, toState := HavocState.ADVERSARIAL,
         timestamp := 2, triggeredBy := "RUG_DETECTED" }]
    launchTime := 0 }

/-- A calm market snapshot whose adversarial policy picks NO_ACTION on its
    own (internal signal 0.335), used to witness the synchronization
    override. -/
def c5_pool : PoolState :=
  { mint := "mintA"
    currentPrice := 1
    priceHistory := [1]
    bidAskSpread := 1/100
    spreadBps := 10
    volume24h := 5
    liquidityNative := 100
    liquidityToken := 1000
    volatility := 1
    orderBookImbalance := 0 }

/-- Chaos signal with magnitude 0.9 and the synchronize hint set. -/
def c5_signal : MayhemSignal :=
  { chaosLevel := 9/10, suggestedSynchronization := true, timestamp := 0 }

/-- Adversarial-band context carrying the chaos signal. -/
def c5_context : MMModeContext :=
  { criband := CRIBand.ADVERSARIAL, mayhemSignals := some c5_signal, windowSize := 10 }

/-- A reputation record with one 10-day-old rug detection, band NEUTRAL and
    score 50, for the recordRugDetection witness. -/
def c6_record : CRIRecord :=
  { devWallet := "dev1"
    internalScore := 50
    band := CRIBand.NEUTRAL
    lastUpdated := 0
    observationCount := 1
    historicalBands := [CRIBand.NEUTRAL]
    rugDetections := [(0, 7/10)]
    recidivismCount := 0 }

/-- Records map holding only c6_record. -/
def c6_records : CRIRecords := [("dev1", c6_record)]

/-- Pattern store with five identical observations of 0.5, enough for a
    forecast, used against the strict-confidence claim. -/
def c7_pats : Patterns :=
  [("mintA:volatility_spike",
    { observations := [1/2, 1/2, 1/2, 1/2, 1/2], lastUpdate := 0 })]

/-- Pattern store whose window is 30 copies of 0.3: the standard deviation is
    zero, so the anomaly scorer takes its degenerate branch. -/
def c9_constant_pats : Patterns :=
  [("mintA:liquidity_drain",
    { observations := List.replicate 30 (3/10), lastUpdate := 0 })]

/-- A 30-point window inside the band from 0.3 to 0.4 with nonzero spread:
    fifteen points at 0.3 and fifteen at 0.4. -/
def c9_witness_obs : List ℚ :=
  List.replicate 15 (3/10) ++ List.replicate 15 (2/5)

/-- Pattern store with three observations: too few for a forecast. -/
def c10_short_pats : Patterns :=
  [("mintA:wash_trading", { observations := [1/10, 2/10, 3/10], lastUpdate := 0 })]

/-- Pattern store with six observations: enough for a forecast. -/
def c10_long_pats : Patterns :=
  [("mintA:wash_trading",
    { observations := [1/10, 2/10, 3/10, 4/10, 6/10, 9/10], lastUpdate := 0 })]

/-! ## Theorems -/

/-- C1: the claim says a TERMINATED entity rejects every further operation as
    a caller-visible error with its state and history unchanged.  The code
    has no such guard: after initializeToken and terminate, a rug detection on
    the TERMINATED entity succeeds, performs and records a TERMINATED to
    ADVERSARIAL transition, and changes the current state.  This closed run
    evaluates the embedded source on that input. -/
theorem c1_terminated_state_not_absorbing :
    terminate (initializeToken [] "mintA" 0 0).2 "mintA" "MANUAL_STOP" 1 =
        Except.ok [("mintA", c1_terminated)]
      ∧ c1_terminated.currentState = HavocState.TERMINATED
      ∧ onRugDetected [("mintA", c1_terminated)] "mintA" (3/5) 2 =
        Except.ok (HavocState.ADVERSARIAL, [("mintA", c1_rugged)])
      ∧ c1_rugged.currentState = HavocState.ADVERSARIAL
      ∧ c1_rugged.transitionHistory =
        c1_terminated.transitionHistory ++
          [{ fromState := HavocState.TERMINATED, toState := HavocState.ADVERSARIAL,
             timestamp := 2, triggeredBy := "RUG_DETECTED" }] :=
  ⟨rfl, rfl, rfl, rfl, rfl⟩

/-- C8: the claim says getTransitionProbabilities returns the normalized,
    descending-sorted distribution of recorded outgoing transitions.  The
    source instead throws a TypeError whenever the entity has any recorded
    transition, because the filter callback computing the total receives the
    element index as its second parameter and calls startsWith on that
    number.  This closed run records one transition and evaluates the query
    on it. -/
theorem c8_transition_probabilities_throw :
    recordTransition [] "mintA" "CRASH_DETECTED" "BUFFER_DEPLOYED" =
        [("mintA", [("CRASH_DETECTED→BUFFER_DEPLOYED", 1)])]
      ∧ getTransitionProbabilities
          (recordTransition [] "mintA" "CRASH_DETECTED" "BUFFER_DEPLOYED")
          "mintA" "CRASH_DETECTED" =
        Except.error "TypeError: key.startsWith is not a function" :=
  ⟨rfl, rfl⟩

/-- C5: whenever the context carries the ADVERSARIAL band and a chaos signal
    whose synchronize hint is set, decideAction returns EXTRACTION_SUPPRESSION
    for every market snapshot, regardless of what the adversarial policy
    selected first. -/
theorem c5_adversarial_sync_forces_extraction_suppression
    (poolState : PoolState) (context : MMModeContext) (sig : MayhemSignal)
    (hband : context.criband = CRIBand.ADVERSARIAL)
    (hsig : context.mayhemSignals = some sig)
    (hsync : sig.suggestedSynchronization = true) :
    decideAction poolState context = MMActionType.EXTRACTION_SUPPRESSION := by
  simp only [decideAction, hsig, hband, coordinateWithMayhem, hsync]
  simp

/-- Witness for C5: the concrete snapshot c5_pool (whose adversarial policy
    picks NO_ACTION on its own) still yields EXTRACTION_SUPPRESSION under the
    0.9-magnitude synchronize signal. -/
theorem c5_witness :
    adversarialModeDecision c5_pool (computeInternalSignal c5_pool c5_context) =
        MMActionType.NO_ACTION
      ∧ decideAction c5_pool c5_context = MMActionType.EXTRACTION_SUPPRESSION :=
  ⟨by norm_num [adversarialModeDecision, computeInternalSignal, c5_pool, c5_context],
   c5_adversarial_sync_forces_extraction_suppression c5_pool c5_context c5_signal
     rfl rfl rfl⟩

/-- The raw (unfloored) confidence term is antitone in the lookahead. -/
theorem confidence_term_anti (k1 k2 : ℕ) (h : k1 ≤ k2) :
    (9/10 : ℚ) / (1 + (k2 : ℚ) * (1/2)) ≤ (9/10 : ℚ) / (1 + (k1 : ℚ) * (1/2)) := by
  have hc : (k1 : ℚ) ≤ (k2 : ℚ) := by exact_mod_cast h
  gcongr

/-- The forecast confidence is antitone in the lookahead. -/
theorem forecastConfidence_anti (k1 k2 : ℕ) (h : k1 ≤ k2) :
    forecastConfidence k2 ≤ forecastConfidence k1 :=
  max_le_max (le_refl _) (confidence_term_anti k1 k2 h)

/-- The forecast confidence is strictly antitone as long as the smaller
    lookahead is still above the 0.4 floor, that is at most 2. -/
theorem forecastConfidence_strict_anti (k1 k2 : ℕ) (h : k1 < k2) (hk : k1 ≤ 2) :
    forecastConfidence k2 < forecastConfidence k1 := by
  have hk1 : (k1 : ℚ) ≤ 2 := by exact_mod_cast hk
  have hlt : (k1 : ℚ) < (k2 : ℚ) := by exact_mod_cast h
  have hfloor : (2/5 : ℚ) < (9/10 : ℚ) / (1 + (k1 : ℚ) * (1/2)) := by
    have h2 : (9/10 : ℚ) / 2 ≤ (9/10 : ℚ) / (1 + (k1 : ℚ) * (1/2)) := by
      gcongr
      linarith
    linarith
  have hterm : (9/10 : ℚ) / (1 + (k2 : ℚ) * (1/2)) <
      (9/10 : ℚ) / (1 + (k1 : ℚ) * (1/2)) := by
    gcongr
  calc forecastConfidence k2 < (9/10 : ℚ) / (1 + (k1 : ℚ) * (1/2)) :=
        max_lt hfloor hterm
    _ ≤ forecastConfidence k1 := le_max_right _ _

/-- C7 counterexample: a stream of five observations, lookaheads 3 and 4: the
    claim demands strictly decreasing confidence, but both forecasts carry the
    same confidence 0.4, the floor of the formula. -/
theorem c7_confidence_floor_counterexample :
    forecastMagnitude c7_pats "mintA:volatility_spike" 3 = some (1/2, 2/5)
      ∧ forecastMagnitude c7_pats "mintA:volatility_spike" 4 = some (1/2, 2/5) := by
  constructor <;> norm_num [forecastMagnitude, c7_pats, lookupObs, List.range_succ]

/-- C7 as amended: for any stream with at least five observations and
    lookaheads k1 < k2 (k1 at least 1), both forecasts exist, each confidence
    equals max(0.4, 0.9 / (1 + 0.5 k)), the confidence for k1 is at least the
    confidence for k2, and it is strictly greater whenever k1 is at most 2,
    that is whenever the k1 confidence is still above the 0.4 floor. -/
theorem c7_forecast_confidence_monotone
    (pats : Patterns) (key : String) (entry : PatternEntry) (k1 k2 : ℕ)
    (hlook : lookupObs pats key = some entry)
    (hlen : 5 ≤ entry.observations.length)
    (_hk1 : 1 ≤ k1) (hlt : k1 < k2) :
    ∃ p1 p2 : ℚ × ℚ,
      forecastMagnitude pats key k1 = some p1
        ∧ forecastMagnitude pats key k2 = some p2
        ∧ p1.2 = forecastConfidence k1
        ∧ p2.2 = forecastConfidence k2
        ∧ p2.2 ≤ p1.2
        ∧ (k1 ≤ 2 → p2.2 < p1.2) := by
  have hnot : ¬ entry.observations.length < 5 := by omega
  obtain ⟨f1, hf1⟩ : ∃ f1, forecastMagnitude pats key k1 =
      some (f1, forecastConfidence k1) := by
    simp only [forecastMagnitude, hlook, if_neg hnot, forecastConfidence]
    exact ⟨_, rfl⟩
  obtain ⟨f2, hf2⟩ : ∃ f2, forecastMagnitude pats key k2 =
      some (f2, forecastConfidence k2) := by
    simp only [forecastMagnitude, hlook, if_neg hnot, forecastConfidence]
    exact ⟨_, rfl⟩
  exact ⟨(f1, forecastConfidence k1), (f2, forecastConfidence k2), hf1, hf2, rfl, rfl,
    forecastConfidence_anti k1 k2 (le_of_lt hlt),
    fun hk => forecastConfidence_strict_anti k1 k2 hlt hk⟩

/-- Witness for C7: the five-observation stream c7_pats with lookaheads 1 and
    2 has both forecasts defined, with strictly decreasing confidence. -/
theorem c7_witness :
    lookupObs c7_pats "mintA:volatility_spike" =
        some { observations := [1/2, 1/2, 1/2, 1/2, 1/2], lastUpdate := 0 }
      ∧ ∃ p1 p2 : ℚ × ℚ,
        forecastMagnitude c7_pats "mintA:volatility_spike" 1 = some p1
          ∧ forecastMagnitude c7_pats "mintA:volatility_spike" 2 = some p2
          ∧ p1.2 = forecastConfidence 1
          ∧ p2.2 = forecastConfidence 2
          ∧ p2.2 ≤ p1.2
          ∧ (1 ≤ 2 → p2.2 < p1.2) :=
  ⟨rfl,
   c7_forecast_confidence_monotone c7_pats "mintA:volatility_spike"
     { observations := [1/2, 1/2, 1/2, 1/2, 1/2], lastUpdate := 0 } 1 2
     rfl (by decide) (by decide) (by decide)⟩

/-- C10: with a missing stream or fewer than 5 observations forecastMagnitude
    returns none; with 5 or more it returns a forecast clamped to the unit
    interval. -/
theorem c10_forecast_window_guard (pats : Patterns) (key : String) (k : ℕ) :
    (lookupObs pats key = none → forecastMagnitude pats key k = none)
      ∧ ∀ entry, lookupObs pats key = some entry →
        (entry.observations.length < 5 → forecastMagnitude pats key k = none)
          ∧ (5 ≤ entry.observations.length →
            ∃ f c : ℚ, forecastMagnitude pats key k = some (f, c) ∧ 0 ≤ f ∧ f ≤ 1) := by
  refine ⟨fun h => ?_, fun entry h => ⟨fun hshort => ?_, fun hlong => ?_⟩⟩
  · simp only [forecastMagnitude, h]
  · simp only [forecastMagnitude, h, if_pos hshort]
  · have hnot : ¬ entry.observations.length < 5 := by omega
    simp only [forecastMagnitude, h, if_neg hnot]
    exact ⟨_, _, rfl, le_max_left 0 _, max_le (by norm_num) (min_le_right _ _)⟩

/-- Witness for C10: the three-observation stream gives no forecast, and the
    six-observation stream gives a forecast inside the unit interval. -/
theorem c10_witness :
    forecastMagnitude c10_short_pats "mintA:wash_trading" 1 = none
      ∧ ∃ f c : ℚ, forecastMagnitude c10_long_pats "mintA:wash_trading" 2 = some (f, c)
          ∧ 0 ≤ f ∧ f ≤ 1 :=
  ⟨((c10_forecast_window_guard c10_short_pats "mintA:wash_trading" 1).2
      { observations := [1/10, 2/10, 3/10], lastUpdate := 0 } rfl).1 (by decide),
   ((c10_forecast_window_guard c10_long_pats "mintA:wash_trading" 2).2
      { observations := [1/10, 2/10, 3/10, 4/10, 6/10, 9/10], lastUpdate := 0 } rfl).2
      (by decide)⟩

/-- Looking a key up after storing under that key returns the stored record,
    provided the key was already present. -/
theorem lookupRecord_setRecord (records : CRIRecords) (k : String) (r r' : CRIRecord)
    (h : lookupRecord records k = some r) :
    lookupRecord (setRecord records k r') k = some r' := by
  induction records with
  | nil => simp [lookupRecord] at h
  | cons p ps ih =>
      by_cases hp : p.1 = k
      · simp [lookupRecord, setRecord, hp]
      · simp only [lookupRecord, setRecord, if_neg hp] at h ⊢
        exact ih h

/-- C6 counterexample: for an actor with no reputation record on file,
    recordRugDetection is a silent no-op; no rug-history entry is appended
    anywhere, contradicting the unconditional append the claim states. -/
theorem c6_missing_actor_noop :
    recordRugDetection [] "dev1" (1/2) 0 = []
      ∧ lookupRecord (recordRugDetection [] "dev1" (1/2) 0) "dev1" = none :=
  ⟨rfl, rfl⟩

/-- C6 as amended: for every actor that already has a reputation record,
    recordRugDetection appends exactly one (timestamp, severity) entry to that
    actor's rug history, increments the recidivism count exactly when at
    least two of the actor's rug detections (the new one included) fall
    within the trailing 60-day window, and leaves the stored band, internal
    score and observation count unchanged. -/
theorem c6_record_rug_detection_effects
    (records : CRIRecords) (devKey : String) (severity now : ℚ) (r : CRIRecord)
    (h : lookupRecord records devKey = some r) :
    ∃ r', lookupRecord (recordRugDetection records devKey severity now) devKey = some r'
      ∧ r'.rugDetections = r.rugDetections ++ [(now, severity)]
      ∧ r'.recidivismCount =
          (if 2 ≤ ((r.rugDetections ++ [(now, severity)]).filter
              (fun d => now - d.1 < RECIDIVISM_WINDOW_MS)).length
            then r.recidivismCount + 1 else r.recidivismCount)
      ∧ r'.band = r.band
      ∧ r'.internalScore = r.internalScore
      ∧ r'.observationCount = r.observationCount := by
  simp only [recordRugDetection, h]
  exact ⟨_, lookupRecord_setRecord records devKey r _ h, rfl, rfl, rfl, rfl, rfl⟩

/-- Witness for C6: the concrete store c6_records holds one record for dev1
    with a single rug detection at time 0; a second detection of severity 0.5
    ten days later (in milliseconds) appends one entry, bumps the recidivism
    count, and leaves band and score untouched. -/
theorem c6_witness :
    lookupRecord c6_records "dev1" = some c6_record
      ∧ ∃ r', lookupRecord (recordRugDetection c6_records "dev1" (1/2) 864000000)
            "dev1" = some r'
          ∧ r'.rugDetections = c6_record.rugDetections ++ [(864000000, 1/2)]
          ∧ r'.recidivismCount =
              (if 2 ≤ ((c6_record.rugDetections ++ [(864000000, 1/2)]).filter
                  (fun d : ℚ × ℚ => 864000000 - d.1 < RECIDIVISM_WINDOW_MS)).length
                then c6_record.recidivismCount + 1 else c6_record.recidivismCount)
          ∧ r'.band = c6_record.band
          ∧ r'.internalScore = c6_record.internalScore
          ∧ r'.observationCount = c6_record.observationCount :=
  ⟨rfl, c6_record_rug_detection_effects c6_records "dev1" (1/2) 864000000 c6_record rfl⟩

/-- Folding additions from an accumulator equals the accumulator plus the
    mapped sum. -/
theorem foldl_add_eq_sum (f : ℚ × ℚ → ℝ) (l : List (ℚ × ℚ)) (a : ℝ) :
    l.foldl (fun acc d => acc + f d) a = a + (l.map f).sum := by
  induction l generalizing a with
  | nil => simp
  | cons x xs ih => simp [List.foldl_cons, ih, add_assoc]

/-- The decay loop of applyTemporalDecay computes the recidivism multiplier
    times the decayed severity sum. -/
theorem applyTemporalDecay_eq (dets : List (ℚ × ℚ)) (r : ℕ) (now : ℚ) :
    applyTemporalDecay dets r now = recidivismMultiplier r * sumDecayed dets now := by
  unfold applyTemporalDecay sumDecayed
  rw [foldl_add_eq_sum]
  ring

/-- The recidivism multiplier is always positive. -/
theorem recidivismMultiplier_pos (r : ℕ) : 0 < recidivismMultiplier r := by
  unfold recidivismMultiplier
  split_ifs <;> norm_num

/-- The recidivism multiplier is 4 from the second repeat offense on. -/
theorem recidivismMultiplier_cap (r : ℕ) (h : 2 ≤ r) :
    recidivismMultiplier r = 4 := by
  unfold recidivismMultiplier
  rw [if_neg (by omega), if_neg (by omega)]

/-- The decayed severity sum strictly decreases when evaluation moves later
    (every detection ages), provided severities are nonnegative and at least
    one is positive. -/
theorem sumDecayed_strict_anti (dets : List (ℚ × ℚ)) (now₁ now₂ : ℚ)
    (hnn : ∀ d ∈ dets, 0 ≤ d.2) (hex : ∃ d ∈ dets, 0 < d.2) (h : now₁ < now₂) :
    sumDecayed dets now₂ < sumDecayed dets now₁ := by
  have hH : (0 : ℝ) < HALF_LIFE_MS := by norm_num [HALF_LIFE_MS]
  have hexp : ∀ d : ℚ × ℚ,
      Real.exp (-(((now₂ - d.1 : ℚ)) : ℝ) / HALF_LIFE_MS) <
        Real.exp (-(((now₁ - d.1 : ℚ)) : ℝ) / HALF_LIFE_MS) := by
    intro d
    apply Real.exp_lt_exp.mpr
    rw [div_lt_div_iff_of_pos_right hH]
    have hc : ((now₁ - d.1 : ℚ) : ℝ) < ((now₂ - d.1 : ℚ) : ℝ) :=
      Rat.cast_lt.mpr (by linarith)
    linarith
  unfold sumDecayed
  apply List.sum_lt_sum
  · intro d hd
    exact mul_le_mul_of_nonneg_left (le_of_lt (hexp d)) (by exact_mod_cast hnn d hd)
  · obtain ⟨d, hd, hpos⟩ := hex
    exact ⟨d, hd, mul_lt_mul_of_pos_left (hexp d) (by exact_mod_cast hpos)⟩

/-- C2: the claim says the decayed penalty of one rug at age 30 days is about
    half the age-0 penalty.  The code decays by exp(-age / H) with H equal to
    30 days, so at age 30 days the retained fraction is exp(-1), about 36.8
    percent, strictly between 36 and 37 percent of the day-0 penalty and
    nowhere near the claimed one half.  The run below evaluates a single
    severity-0.6 detection at age 0 and at age 30 days (2592000000 ms). -/
theorem c2_thirty_day_retention_is_exp_neg_one :
    applyTemporalDecay [((0 : ℚ), (3/5 : ℚ))] 0 0 = 3/5
      ∧ applyTemporalDecay [((0 : ℚ), (3/5 : ℚ))] 0 2592000000 =
          (3/5 : ℝ) * Real.exp (-1)
      ∧ applyTemporalDecay [((0 : ℚ), (3/5 : ℚ))] 0 2592000000 <
          (37/100) * applyTemporalDecay [((0 : ℚ), (3/5 : ℚ))] 0 0
      ∧ (36/100) * applyTemporalDecay [((0 : ℚ), (3/5 : ℚ))] 0 0 <
          applyTemporalDecay [((0 : ℚ), (3/5 : ℚ))] 0 2592000000 := by
  have h0 : applyTemporalDecay [((0 : ℚ), (3/5 : ℚ))] 0 0 = 3/5 := by
    simp [applyTemporalDecay, recidivismMultiplier, HALF_LIFE_MS]
  have h30 : applyTemporalDecay [((0 : ℚ), (3/5 : ℚ))] 0 2592000000 =
      (3/5 : ℝ) * Real.exp (-1) := by
    simp only [applyTemporalDecay, recidivismMultiplier, HALF_LIFE_MS, List.foldl_cons,
      List.foldl_nil, if_pos rfl]
    norm_num
  have hE := Real.exp_one_gt_d9
  have hE' := Real.exp_one_lt_d9
  have hpos : (0 : ℝ) < Real.exp 1 := Real.exp_pos 1
  have hinv : Real.exp (-1) = (Real.exp 1)⁻¹ := by
    rw [Real.exp_neg]
  have hone : Real.exp 1 * (Real.exp 1)⁻¹ = 1 := mul_inv_cancel₀ (ne_of_gt hpos)
  have hinvpos : (0 : ℝ) < (Real.exp 1)⁻¹ := inv_pos.mpr hpos
  have hub : (Real.exp 1)⁻¹ < 37/100 := by nlinarith
  have hlb : (36/100 : ℝ) < (Real.exp 1)⁻¹ := by nlinarith
  refine ⟨h0, h30, ?_, ?_⟩
  · rw [h0, h30, hinv]; nlinarith
  · rw [h0, h30, hinv]; nlinarith

/-- C3 counterexample: the claim asserts the total penalty strictly increases
    with recidivism count, but the multiplier is capped at 4 from count 2 on;
    a severity-0.6 detection yields the same positive penalty at recidivism
    counts 2 and 3. -/
theorem c3_recidivism_cap_counterexample :
    applyTemporalDecay [((0 : ℚ), (3/5 : ℚ))] 2 0 =
        applyTemporalDecay [((0 : ℚ), (3/5 : ℚ))] 3 0
      ∧ 0 < applyTemporalDecay [((0 : ℚ), (3/5 : ℚ))] 2 0
      ∧ ¬ applyTemporalDecay [((0 : ℚ), (3/5 : ℚ))] 2 0 <
          applyTemporalDecay [((0 : ℚ), (3/5 : ℚ))] 3 0 := by
  have heq : applyTemporalDecay [((0 : ℚ), (3/5 : ℚ))] 2 0 =
      applyTemporalDecay [((0 : ℚ), (3/5 : ℚ))] 3 0 := by
    rw [applyTemporalDecay_eq, applyTemporalDecay_eq,
      recidivismMultiplier_cap 2 (by omega), recidivismMultiplier_cap 3 (by omega)]
  have hpos : 0 < applyTemporalDecay [((0 : ℚ), (3/5 : ℚ))] 2 0 := by
    rw [applyTemporalDecay_eq]
    have : 0 < sumDecayed [((0 : ℚ), (3/5 : ℚ))] 0 := by
      simp only [sumDecayed, List.map_cons, List.map_nil, List.sum_cons, List.sum_nil]
      positivity
    exact mul_pos (recidivismMultiplier_pos 2) this
  exact ⟨heq, hpos, by rw [heq]; exact lt_irrefl _⟩

/-- C3 as amended: the total decayed penalty equals the recidivism multiplier
    (1 at count 0, 2.5 at count 1, 4 at count 2 and beyond) times the sum over
    detections of severity times exp(-age / H) with H the 30 days 2592000000
    ms; holding severities fixed (nonnegative, at least one positive) the
    total strictly decreases when every detection ages, and holding the
    detections fixed with nonzero decayed sum it strictly increases from
    recidivism count 0 to 1 to 2 and stays constant from count 2 on. -/
theorem c3_decay_formula_and_monotonicity :
    HALF_LIFE_MS = 2592000000
      ∧ recidivismMultiplier 0 = 1
      ∧ recidivismMultiplier 1 = 2.5
      ∧ (∀ r : ℕ, 2 ≤ r → recidivismMultiplier r = 4)
      ∧ (∀ (dets : List (ℚ × ℚ)) (r : ℕ) (now : ℚ),
          applyTemporalDecay dets r now = recidivismMultiplier r * sumDecayed dets now)
      ∧ (∀ (dets : List (ℚ × ℚ)) (r : ℕ) (now₁ now₂ : ℚ),
          (∀ d ∈ dets, 0 ≤ d.2) → (∃ d ∈ dets, 0 < d.2) → now₁ < now₂ →
            applyTemporalDecay dets r now₂ < applyTemporalDecay dets r now₁)
      ∧ (∀ (dets : List (ℚ × ℚ)) (now : ℚ), 0 < sumDecayed dets now →
          applyTemporalDecay dets 0 now < applyTemporalDecay dets 1 now
            ∧ applyTemporalDecay dets 1 now < applyTemporalDecay dets 2 now)
      ∧ (∀ (dets : List (ℚ × ℚ)) (r : ℕ) (now : ℚ), 2 ≤ r →
          applyTemporalDecay dets r now = applyTemporalDecay dets 2 now) := by
  refine ⟨by norm_num [HALF_LIFE_MS], by norm_num [recidivismMultiplier],
    by norm_num [recidivismMultiplier], recidivismMultiplier_cap,
    applyTemporalDecay_eq, ?_, ?_, ?_⟩
  · intro dets r now₁ now₂ hnn hex h
    rw [applyTemporalDecay_eq, applyTemporalDecay_eq]
    exact mul_lt_mul_of_pos_left (sumDecayed_strict_anti dets now₁ now₂ hnn hex h)
      (recidivismMultiplier_pos r)
  · intro dets now hsum
    rw [applyTemporalDecay_eq, applyTemporalDecay_eq, applyTemporalDecay_eq]
    constructor
    · apply mul_lt_mul_of_pos_right ?_ hsum
      norm_num [recidivismMultiplier]
    · apply mul_lt_mul_of_pos_right ?_ hsum
      norm_num [recidivismMultiplier]
  · intro dets r now hr
    rw [applyTemporalDecay_eq, applyTemporalDecay_eq, recidivismMultiplier_cap r hr,
      recidivismMultiplier_cap 2 (by omega)]

/-- Witness for C3: a single severity-0.6 detection made at time 0.  Aging it
    from evaluation time 0 to 30 days strictly lowers the penalty, the
    recidivism steps 0 to 1 to 2 strictly raise it, and count 3 equals
    count 2. -/
theorem c3_witness :
    (∀ d ∈ [((0 : ℚ), (3/5 : ℚ))], 0 ≤ d.2)
      ∧ (∃ d ∈ [((0 : ℚ), (3/5 : ℚ))], 0 < d.2)
      ∧ (0 : ℚ) < 2592000000
      ∧ 0 < sumDecayed [((0 : ℚ), (3/5 : ℚ))] 0
      ∧ applyTemporalDecay [((0 : ℚ), (3/5 : ℚ))] 0 2592000000 <
          applyTemporalDecay [((0 : ℚ), (3/5 : ℚ))] 0 0
      ∧ applyTemporalDecay [((0 : ℚ), (3/5 : ℚ))] 0 0 <
          applyTemporalDecay [((0 : ℚ), (3/5 : ℚ))] 1 0
      ∧ applyTemporalDecay [((0 : ℚ), (3/5 : ℚ))] 1 0 <
          applyTemporalDecay [((0 : ℚ), (3/5 : ℚ))] 2 0
      ∧ applyTemporalDecay [((0 : ℚ), (3/5 : ℚ))] 3 0 =
          applyTemporalDecay [((0 : ℚ), (3/5 : ℚ))] 2 0 := by
  have hnn : ∀ d ∈ [((0 : ℚ), (3/5 : ℚ))], 0 ≤ d.2 := by
    intro d hd
    simp only [List.mem_singleton] at hd
    rw [hd]
    norm_num
  have hex : ∃ d ∈ [((0 : ℚ), (3/5 : ℚ))], 0 < d.2 :=
    ⟨((0 : ℚ), (3/5 : ℚ)), by simp, by norm_num⟩
  have hsum : 0 < sumDecayed [((0 : ℚ), (3/5 : ℚ))] 0 := by
    simp only [sumDecayed, List.map_cons, List.map_nil, List.sum_cons, List.sum_nil]
    positivity
  exact ⟨hnn, hex, by norm_num, hsum,
    (c3_decay_formula_and_monotonicity.2.2.2.2.2.1)
      [((0 : ℚ), (3/5 : ℚ))] 0 0 2592000000 hnn hex (by norm_num),
    ((c3_decay_formula_and_monotonicity.2.2.2.2.2.2.1) [((0 : ℚ), (3/5 : ℚ))] 0 hsum).1,
    ((c3_decay_formula_and_monotonicity.2.2.2.2.2.2.1) [((0 : ℚ), (3/5 : ℚ))] 0 hsum).2,
    (c3_decay_formula_and_monotonicity.2.2.2.2.2.2.2) [((0 : ℚ), (3/5 : ℚ))] 3 0 (by omega)⟩

/-- C4: the band mapping returns GUARDIAN exactly on scores at least 80,
    NEUTRAL exactly on scores in [40, 80), ADVERSARIAL exactly below 40; it
    is a non-decreasing step function of the score under the ordering
    ADVERSARIAL < NEUTRAL < GUARDIAN; and the score computeScore feeds it is
    always clamped to [0, 100]. -/
theorem c4_band_step_function :
    (∀ s : ℝ,
        (scoreToBand s = CRIBand.GUARDIAN ↔ 80 ≤ s)
          ∧ (scoreToBand s = CRIBand.NEUTRAL ↔ 40 ≤ s ∧ s < 80)
          ∧ (scoreToBand s = CRIBand.ADVERSARIAL ↔ s < 40))
      ∧ (∀ s t : ℝ, s ≤ t → bandOrd (scoreToBand s) ≤ bandOrd (scoreToBand t))
      ∧ (∀ (input : CRIInput) (record : Option CRIRecord) (now : ℚ),
          0 ≤ computeScore input record now ∧ computeScore input record now ≤ 100) := by
  refine ⟨?_, ?_, ?_⟩
  · intro s
    unfold scoreToBand
    split_ifs with h1 h2 <;> refine ⟨?_, ?_, ?_⟩ <;> simp <;>
      first
        | linarith
        | (intro h; linarith)
        | exact ⟨by linarith, by linarith⟩
  · intro s t hst
    unfold scoreToBand
    split_ifs <;> simp [bandOrd] <;> linarith
  · intro input record now
    unfold computeScore
    exact ⟨le_max_left 0 _, max_le (by norm_num) (min_le_left 100 _)⟩

/-- Witness for C4: the monotone part applied at scores 30 and 90, whose
    bands are ADVERSARIAL and GUARDIAN. -/
theorem c4_witness :
    (30 : ℝ) ≤ 90 ∧ bandOrd (scoreToBand 30) ≤ bandOrd (scoreToBand 90) :=
  ⟨by norm_num, c4_band_step_function.2.1 30 90 (by norm_num)⟩

/-- The mean of a constant window is that constant. -/
theorem listMean_replicate (n : ℕ) (q : ℚ) (hn : n ≠ 0) :
    listMean (List.replicate n q) = (q : ℝ) := by
  have hn' : (n : ℝ) ≠ 0 := Nat.cast_ne_zero.mpr hn
  simp only [listMean, List.map_replicate, List.sum_replicate, List.length_replicate,
    nsmul_eq_mul]
  field_simp

/-- The variance of a constant window is zero. -/
theorem listVariance_replicate (n : ℕ) (q : ℚ) (hn : n ≠ 0) :
    listVariance (List.replicate n q) = 0 := by
  simp only [listVariance, listMean_replicate n q hn, List.map_replicate,
    List.sum_replicate, List.length_replicate, sub_self]
  simp

/-- C9 counterexample: thirty identical observations of 0.3 all lie in
    [0.3, 0.4], yet the probe 0.95 is not flagged: the window's standard
    deviation is zero, so the scorer takes its degenerate branch and returns
    isAnomaly false with severity 0.5, not above 0.7. -/
theorem c9_constant_window_counterexample :
    ¬ (getAnomalyScore c9_constant_pats "mintA:liquidity_drain" (19/20)).isAnomaly
      ∧ (getAnomalyScore c9_constant_pats "mintA:liquidity_drain" (19/20)).severity = 1/2
      ∧ ¬ 7/10 <
          (getAnomalyScore c9_constant_pats "mintA:liquidity_drain" (19/20)).severity := by
  have hlook : lookupObs c9_constant_pats "mintA:liquidity_drain" =
      some { observations := List.replicate 30 (3/10), lastUpdate := 0 } := rfl
  have hsd : listStdDev (List.replicate 30 ((3/10 : ℚ))) = 0 := by
    simp only [listStdDev]
    rw [listVariance_replicate 30 (3/10) (by omega), Real.sqrt_zero]
  have hfar : (1/100 : ℝ) <
      |((19/20 : ℚ) : ℝ) - listMean (List.replicate 30 ((3/10 : ℚ)))| := by
    rw [listMean_replicate 30 (3/10) (by omega)]
    rw [show ((19/20 : ℚ) : ℝ) - ((3/10 : ℚ) : ℝ) = 13/20 by push_cast; norm_num]
    rw [abs_of_pos (by norm_num)]
    norm_num
  have hred : getAnomalyScore c9_constant_pats "mintA:liquidity_drain" (19/20) =
      { severity := 1/2, isAnomaly := False, deviation := 0, confidence := 1/2 } := by
    simp only [getAnomalyScore, hlook]
    rw [if_neg (by simp), if_pos hsd, if_pos hfar]
  rw [hred]
  norm_num

/-- C9 as amended: for every 30-point window inside [0.3, 0.4] whose standard
    deviation is nonzero, probing with 0.95 is flagged as an anomaly with
    severity above 0.7 (in fact the clamped severity 1), with the deviation
    standardized exactly as (x - mean) / stddev and confidence
    min(30 / 50, 0.95) = 0.6. -/
theorem c9_probe_is_anomaly
    (pats : Patterns) (key : String) (entry : PatternEntry)
    (hlook : lookupObs pats key = some entry)
    (hlen : entry.observations.length = 30)
    (hrange : ∀ q ∈ entry.observations, 3/10 ≤ q ∧ q ≤ 2/5)
    (hsd : listStdDev entry.observations ≠ 0) :
    (getAnomalyScore pats key (19/20)).isAnomaly
      ∧ 7/10 < (getAnomalyScore pats key (19/20)).severity
      ∧ (getAnomalyScore pats key (19/20)).deviation =
          (((19/20 : ℚ) : ℝ) - listMean entry.observations) / listStdDev entry.observations
      ∧ (getAnomalyScore pats key (19/20)).confidence = 3/5 := by
  have hred : getAnomalyScore pats key (19/20) =
      { severity := min
          (|(((19/20 : ℚ) : ℝ) - listMean entry.observations) /
              listStdDev entry.observations| / 4) 1
        isAnomaly := 2 < |(((19/20 : ℚ) : ℝ) - listMean entry.observations) /
            listStdDev entry.observations|
        deviation := (((19/20 : ℚ) : ℝ) - listMean entry.observations) /
            listStdDev entry.observations
        confidence := min ((entry.observations.length : ℝ) / 50) (95/100) } := by
    simp only [getAnomalyScore, hlook]
    rw [if_neg (by omega), if_neg hsd]
  -- bounds on the mean
  have hcast : ∀ x ∈ entry.observations.map (fun q : ℚ => (q : ℝ)),
      (3/10 : ℝ) ≤ x ∧ x ≤ 2/5 := by
    intro x hx
    obtain ⟨q, hq, rfl⟩ := List.mem_map.mp hx
    obtain ⟨h1, h2⟩ := hrange q hq
    constructor
    · rw [show (3/10 : ℝ) = ((3/10 : ℚ) : ℝ) by norm_num]
      exact_mod_cast h1
    · rw [show (2/5 : ℝ) = ((2/5 : ℚ) : ℝ) by norm_num]
      exact_mod_cast h2
  have hlen' : (entry.observations.map (fun q : ℚ => (q : ℝ))).length = 30 := by
    rw [List.length_map]; exact hlen
  have hsum_ub : (entry.observations.map (fun q : ℚ => (q : ℝ))).sum ≤ 12 := by
    have h := List.sum_le_card_nsmul (entry.observations.map (fun q : ℚ => (q : ℝ)))
      (2/5) (fun x hx => (hcast x hx).2)
    rw [hlen', nsmul_eq_mul] at h
    norm_num at h
    exact h
  have hsum_lb : (9 : ℝ) ≤ (entry.observations.map (fun q : ℚ => (q : ℝ))).sum := by
    have h := List.card_nsmul_le_sum (entry.observations.map (fun q : ℚ => (q : ℝ)))
      (3/10) (fun x hx => (hcast x hx).1)
    rw [hlen', nsmul_eq_mul] at h
    norm_num at h
    exact h
  have hmean_ub : listMean entry.observations ≤ 2/5 := by
    simp only [listMean, hlen]
    rw [show ((30 : ℕ) : ℝ) = 30 by norm_num]
    linarith
  have hmean_lb : (3/10 : ℝ) ≤ listMean entry.observations := by
    simp only [listMean, hlen]
    rw [show ((30 : ℕ) : ℝ) = 30 by norm_num]
    linarith
  -- bounds on the variance and standard deviation
  have hvar_ub : listVariance entry.observations ≤ (1/10) ^ 2 := by
    have hsq : ∀ x ∈ entry.observations.map
        (fun q : ℚ => ((q : ℝ) - listMean entry.observations) ^ 2),
        x ≤ (1/10 : ℝ) ^ 2 := by
      intro x hx
      obtain ⟨q, hq, rfl⟩ := List.mem_map.mp hx
      have h1 : (3/10 : ℝ) ≤ (q : ℝ) := by
        rw [show (3/10 : ℝ) = ((3/10 : ℚ) : ℝ) by norm_num]
        exact_mod_cast (hrange q hq).1
      have h2 : (q : ℝ) ≤ 2/5 := by
        rw [show (2/5 : ℝ) = ((2/5 : ℚ) : ℝ) by norm_num]
        exact_mod_cast (hrange q hq).2
      exact sq_le_sq' (by linarith) (by linarith)
    have h := List.sum_le_card_nsmul
      (entry.observations.map (fun q : ℚ => ((q : ℝ) - listMean entry.observations) ^ 2))
      ((1/10 : ℝ) ^ 2) hsq
    rw [List.length_map, hlen, nsmul_eq_mul] at h
    simp only [listVariance, hlen]
    rw [show ((30 : ℕ) : ℝ) = 30 by norm_num]
    rw [show ((30 : ℕ) : ℝ) = 30 by norm_num] at h
    rw [div_le_iff₀ (by norm_num : (0:ℝ) < 30)]
    linarith
  have hsd_ub : listStdDev entry.observations ≤ 1/10 := by
    simp only [listStdDev]
    calc Real.sqrt (listVariance entry.observations) ≤ Real.sqrt ((1/10) ^ 2) :=
          Real.sqrt_le_sqrt hvar_ub
      _ = 1/10 := Real.sqrt_sq (by norm_num)
  have hsd_nonneg : 0 ≤ listStdDev entry.observations := by
    simp only [listStdDev]
    exact Real.sqrt_nonneg _
  have hsd_pos : 0 < listStdDev entry.observations :=
    lt_of_le_of_ne hsd_nonneg (Ne.symm hsd)
  -- bound on the standardized deviation
  have hnum : (11/20 : ℝ) ≤ ((19/20 : ℚ) : ℝ) - listMean entry.observations := by
    rw [show ((19/20 : ℚ) : ℝ) = 19/20 by norm_num]
    linarith
  have hdev : (11/2 : ℝ) ≤
      (((19/20 : ℚ) : ℝ) - listMean entry.observations) / listStdDev entry.observations := by
    rw [show (11/2 : ℝ) = (11/20) / (1/10) by norm_num]
    gcongr
  have habs : |(((19/20 : ℚ) : ℝ) - listMean entry.observations) /
      listStdDev entry.observations| =
      (((19/20 : ℚ) : ℝ) - listMean entry.observations) / listStdDev entry.observations :=
    abs_of_pos (by linarith)
  rw [hred]
  refine ⟨?_, ?_, rfl, ?_⟩
  · show 2 < |(((19/20 : ℚ) : ℝ) - listMean entry.observations) /
        listStdDev entry.observations|
    rw [habs]
    linarith
  · show (7/10 : ℝ) < min (|(((19/20 : ℚ) : ℝ) - listMean entry.observations) /
        listStdDev entry.observations| / 4) 1
    rw [habs]
    exact lt_min (by linarith) (by norm_num)
  · show min ((entry.observations.length : ℝ) / 50) (95/100) = 3/5
    rw [hlen]
    rw [show ((30 : ℕ) : ℝ) = 30 by norm_num]
    rw [min_eq_left (by norm_num)]
    norm_num

/-- Witness for C9: fifteen observations at 0.3 and fifteen at 0.4, all
    inside [0.3, 0.4], with positive variance 1/400; the probe 0.95 is an
    anomaly of severity above 0.7. -/
theorem c9_witness :
    lookupObs [("mintA:liquidity_drain",
          { observations := c9_witness_obs, lastUpdate := 0 })]
        "mintA:liquidity_drain" =
        some { observations := c9_witness_obs, lastUpdate := 0 }
      ∧ c9_witness_obs.length = 30
      ∧ (∀ q ∈ c9_witness_obs, 3/10 ≤ q ∧ q ≤ 2/5)
      ∧ listStdDev c9_witness_obs ≠ 0
      ∧ (getAnomalyScore [("mintA:liquidity_drain",
            { observations := c9_witness_obs, lastUpdate := 0 })]
          "mintA:liquidity_drain" (19/20)).isAnomaly
      ∧ 7/10 < (getAnomalyScore [("mintA:liquidity_drain",
            { observations := c9_witness_obs, lastUpdate := 0 })]
          "mintA:liquidity_drain" (19/20)).severity := by
  have hlen : c9_witness_obs.length = 30 := by
    simp [c9_witness_obs]
  have hrange : ∀ q ∈ c9_witness_obs, (3/10 : ℚ) ≤ q ∧ q ≤ 2/5 := by
    intro q hq
    simp only [c9_witness_obs, List.mem_append, List.mem_replicate] at hq
    rcases hq with ⟨-, rfl⟩ | ⟨-, rfl⟩ <;> constructor <;> norm_num
  have hmean : listMean c9_witness_obs = 7/20 := by
    simp only [listMean, c9_witness_obs, List.map_append, List.map_replicate,
      List.sum_append, List.sum_replicate, List.length_append, List.length_replicate,
      nsmul_eq_mul]
    norm_num
  have hvar : listVariance c9_witness_obs = 1/400 := by
    simp only [listVariance, hmean]
    simp only [c9_witness_obs, List.map_append, List.map_replicate,
      List.sum_append, List.sum_replicate, List.length_append, List.length_replicate,
      nsmul_eq_mul]
    push_cast
    norm_num
  have hsd : listStdDev c9_witness_obs ≠ 0 := by
    rw [listStdDev, hvar]
    positivity
  have happ := c9_probe_is_anomaly
    [("mintA:liquidity_drain", { observations := c9_witness_obs, lastUpdate := 0 })]
    "mintA:liquidity_drain"
    { observations := c9_witness_obs, lastUpdate := 0 }
    rfl hlen hrange hsd
  exact ⟨rfl, hlen, hrange, hsd, happ.1, happ.2.1⟩

end Havoc
